import Mathlib

/-!
Verification of the ramona-back shopping-cart core: a shallow embedding of
the domain model (`app/domain`), the cart and auth use cases
(`app/application/use_cases`), and the transport-boundary error translation
(`app/shared/exceptions.py`), with theorems settling the spec's claims.

Python's in-place mutation with exceptions is rendered as functions
returning the post-call state together with an optional raised error
(`Cart × Option DomainError`): on a raise, the state component is the
object's state at the moment the exception propagates.  `Decimal` is
rendered as `ℚ` (exact arithmetic), Python `int` as `Int`.
-/

/-- `app/domain/errors.py`: the domain error taxonomy.  Each of the four
specific classes subclasses `DomainError`; every error carries a message. -/
inductive DomainError where
  | domainError (message : String)
  | notFoundError (message : String)
  | authenticationError (message : String)
  | authorizationError (message : String)
  | validationError (message : String)
  deriving DecidableEq, Repr

/-- The `message` attribute set by `DomainError.__init__`. -/
def DomainError.message : DomainError → String
  | .domainError m => m
  | .notFoundError m => m
  | .authenticationError m => m
  | .authorizationError m => m
  | .validationError m => m

/-- `Quantity` value object (`app/domain/value_objects/quantity.py`):
a wrapper around a Python `int`. -/
structure Quantity where
  value : Int
  deriving DecidableEq, Repr

/-- `Quantity(value)` construction: `__post_init__` raises
`ValidationError("Quantity cannot be negative")` when `value < 0`. -/
def Quantity.make (value : Int) : Except DomainError Quantity :=
  if value < 0 then .error (.validationError "Quantity cannot be negative")
  else .ok ⟨value⟩

/-- `Price` value object (`app/domain/value_objects/price.py`):
a wrapper around a `Decimal`, rendered as `ℚ`. -/
structure Price where
  amount : ℚ
  deriving DecidableEq, Repr

/-- `Price(amount)` construction: `__post_init__` raises
`ValidationError("Price cannot be negative")` when `amount < 0`. -/
def Price.make (amount : ℚ) : Except DomainError Price :=
  if amount < 0 then .error (.validationError "Price cannot be negative")
  else .ok ⟨amount⟩

/-- `Product` domain model (`app/domain/models/product.py`). -/
structure Product where
  id : String
  name : String
  description : String
  price : Price
  stock : Quantity
  image_url : String
  category : String
  parent_category : String
  created_at : Option String := none
  deriving DecidableEq, Repr

/-- `CartItem` domain model (`app/domain/models/cart_item.py`): the
`product` field may be `none` when the product is not loaded. -/
structure CartItem where
  product_id : String
  product : Option Product
  quantity : Quantity
  deriving DecidableEq, Repr

/-- `Cart` domain model (`app/domain/models/cart.py`): id, owning user id,
ordered list of items. -/
structure Cart where
  id : String
  user_id : String
  items : List CartItem := []
  deriving DecidableEq, Repr

/-- The loop of `Cart.add_item`: walk the item list; at the first item with
the incoming `product_id`, replace its quantity by
`Quantity(existing.quantity.value + item.quantity.value)` (whose
construction can raise) and stop; if no item matches, append `item`. -/
def addItemLoop : List CartItem → CartItem → List CartItem × Option DomainError
  | [], item => ([item], none)
  | existing :: rest, item =>
    if existing.product_id = item.product_id then
      match Quantity.make (existing.quantity.value + item.quantity.value) with
      | .ok q => ({ existing with quantity := q } :: rest, none)
      | .error e => (existing :: rest, some e)
    else
      let r := addItemLoop rest item
      (existing :: r.1, r.2)

/-- `Cart.add_item` (`cart.py` lines 25-35): merge quantities when the
product already exists, otherwise append. -/
def Cart.add_item (c : Cart) (item : CartItem) : Cart × Option DomainError :=
  let r := addItemLoop c.items item
  ({ c with items := r.1 }, r.2)

/-- `Cart.remove_item` (`cart.py` lines 37-49): filter out every item
matching `product_id`; raise `NotFoundError` when the length is unchanged. -/
def Cart.remove_item (c : Cart) (product_id : String) : Cart × Option DomainError :=
  let filtered := c.items.filter (fun i => i.product_id ≠ product_id)
  let c' := { c with items := filtered }
  if filtered.length = c.items.length then
    (c', some (.notFoundError ("Item with product_id " ++ product_id ++ " not found in cart")))
  else
    (c', none)

/-- The loop of `Cart.update_item_quantity`: replace the quantity of the
first matching item; `none` when no item matches. -/
def updateQuantityLoop : List CartItem → String → Quantity → Option (List CartItem)
  | [], _, _ => none
  | item :: rest, product_id, q =>
    if item.product_id = product_id then some ({ item with quantity := q } :: rest)
    else (updateQuantityLoop rest product_id q).map (item :: ·)

/-- `Cart.update_item_quantity` (`cart.py` lines 51-71): reject negative
quantities with `ValidationError`, delegate zero to `remove_item`,
otherwise replace the matching item's quantity or raise `NotFoundError`. -/
def Cart.update_item_quantity (c : Cart) (product_id : String) (quantity : Quantity) :
    Cart × Option DomainError :=
  if quantity.value < 0 then
    (c, some (.validationError "Quantity cannot be negative"))
  else if quantity.value = 0 then
    c.remove_item product_id
  else
    match updateQuantityLoop c.items product_id quantity with
    | some items' => ({ c with items := items' }, none)
    | none =>
      (c, some (.notFoundError ("Item with product_id " ++ product_id ++ " not found in cart")))

/-- `Cart.total` (`cart.py` lines 73-85): sum of
`item.product.price.amount * item.quantity.value` over items whose
`product` is not `None`, starting from `Decimal(0)`. -/
def Cart.total (c : Cart) : ℚ :=
  c.items.foldl
    (fun acc item =>
      match item.product with
      | some p => acc + p.price.amount * (item.quantity.value : ℚ)
      | none => acc)
    0

/-- `User` domain model (`app/domain/models/user.py`), the fields the login
use case touches plus the rest as plain strings. -/
structure User where
  id : String
  email : String
  name : String
  hashed_password : String
  role : String := "customer"
  deriving DecidableEq, Repr

/-- `AuthResult` DTO (`app/application/dtos.py`). -/
structure AuthResult where
  access_token : String
  token_type : String
  user_id : String
  name : String
  deriving DecidableEq, Repr

/-- `LoginUserInput` (`login_user.py`). -/
structure LoginUserInput where
  email : String
  password : String
  deriving DecidableEq, Repr

/-- `LoginUser.execute` (`login_user.py` lines 44-69).  The injected
collaborators appear as function parameters: `find_by_email` is the user
repository lookup, `verify` the password hasher, `generate` the token
generator. -/
def LoginUser.execute (find_by_email : String → Option User)
    (verify : String → String → Bool) (generate : String → String)
    (input_data : LoginUserInput) : Except DomainError AuthResult :=
  match find_by_email input_data.email with
  | none => .error (.authenticationError "Invalid credentials")
  | some user =>
    if ¬ verify input_data.password user.hashed_password then
      .error (.authenticationError "Invalid credentials")
    else
      .ok { access_token := generate user.id, token_type := "bearer",
            user_id := user.id, name := user.name }

/-- `AddToCartInput` (`add_to_cart.py`). -/
structure AddToCartInput where
  user_id : String
  product_id : String
  quantity : Int := 1
  deriving DecidableEq, Repr

/-- `AddToCart.execute` (`add_to_cart.py` lines 41-68).  `find_product` and
`find_cart` are the repository lookups, `fresh_id` the value `uuid.uuid4()`
produces for a lazily created cart.  The second component of the result is
the list of carts passed to `cart_repo.save`, in order (empty when the use
case raises before saving). -/
def AddToCart.execute (find_product : String → Option Product)
    (find_cart : String → Option Cart) (fresh_id : String)
    (input_data : AddToCartInput) :
    Except DomainError Cart × List Cart :=
  match find_product input_data.product_id with
  | none => (.error (.notFoundError ("Product " ++ input_data.product_id ++ " not found")), [])
  | some product =>
    let cart : Cart :=
      match find_cart input_data.user_id with
      | none => { id := fresh_id, user_id := input_data.user_id, items := [] }
      | some c => c
    match Quantity.make input_data.quantity with
    | .error e => (.error e, [])
    | .ok q =>
      let r := cart.add_item
        { product_id := input_data.product_id, product := some product, quantity := q }
      match r.2 with
      | some e => (.error e, [])
      | none => (.ok r.1, [r.1])

/-- `GetCart.execute` (`get_cart.py` lines 19-31): return the stored cart,
or a freshly identified empty cart when none exists; nothing is ever saved
(the second component lists the carts passed to `cart_repo.save`). -/
def GetCart.execute (find_cart : String → Option Cart) (fresh_id : String)
    (user_id : String) : Cart × List Cart :=
  match find_cart user_id with
  | none => ({ id := fresh_id, user_id := user_id, items := [] }, [])
  | some cart => (cart, [])

/-- `UpdateCartItemInput` (`update_cart_item.py`). -/
structure UpdateCartItemInput where
  user_id : String
  product_id : String
  quantity : Int
  deriving DecidableEq, Repr

/-- `UpdateCartItem.execute` (`update_cart_item.py` lines 36-54): raise
`NotFoundError("Cart not found")` when the user has no cart; only then
construct `Quantity(input_data.quantity)` (which can raise) and apply
`Cart.update_item_quantity`; save and return on success. -/
def UpdateCartItem.execute (find_cart : String → Option Cart)
    (input_data : UpdateCartItemInput) :
    Except DomainError Cart × List Cart :=
  match find_cart input_data.user_id with
  | none => (.error (.notFoundError "Cart not found"), [])
  | some cart =>
    match Quantity.make input_data.quantity with
    | .error e => (.error e, [])
    | .ok q =>
      let r := cart.update_item_quantity input_data.product_id q
      match r.2 with
      | some e => (.error e, [])
      | none => (.ok r.1, [r.1])

/-- The Python classes of the error taxonomy, for modelling exception
dispatch by class. -/
inductive ErrClass where
  | domainError
  | notFoundError
  | authenticationError
  | authorizationError
  | validationError
  deriving DecidableEq, Repr

/-- The class of a raised error value. -/
def DomainError.cls : DomainError → ErrClass
  | .domainError _ => .domainError
  | .notFoundError _ => .notFoundError
  | .authenticationError _ => .authenticationError
  | .authorizationError _ => .authorizationError
  | .validationError _ => .validationError

/-- Python method-resolution order of each error class, restricted to the
domain taxonomy (`errors.py`): each specific class subclasses
`DomainError`. -/
def ErrClass.mro : ErrClass → List ErrClass
  | .domainError => [.domainError]
  | c => [c, .domainError]

/-- A JSON response as produced by the handlers in
`app/shared/exceptions.py`: a status code and a `detail` payload. -/
structure JSONResponse where
  status_code : Nat
  detail : String
  deriving DecidableEq, Repr

/-- `domain_error_handler`: generic domain errors become 400. -/
def domain_error_handler (exc : DomainError) : JSONResponse :=
  { status_code := 400, detail := exc.message }

/-- `not_found_handler`: not-found errors become 404. -/
def not_found_handler (exc : DomainError) : JSONResponse :=
  { status_code := 404, detail := exc.message }

/-- `authentication_error_handler`: authentication errors become 401. -/
def authentication_error_handler (exc : DomainError) : JSONResponse :=
  { status_code := 401, detail := exc.message }

/-- `authorization_error_handler`: authorization errors become 403. -/
def authorization_error_handler (exc : DomainError) : JSONResponse :=
  { status_code := 403, detail := exc.message }

/-- `validation_error_handler`: validation errors become 422. -/
def validation_error_handler (exc : DomainError) : JSONResponse :=
  { status_code := 422, detail := exc.message }

/-- `register_exception_handlers`: the handler table registered on the
application, keyed by exception class, in registration order. -/
def registered_exception_handlers : List (ErrClass × (DomainError → JSONResponse)) :=
  [ (.notFoundError, not_found_handler),
    (.authenticationError, authentication_error_handler),
    (.authorizationError, authorization_error_handler),
    (.validationError, validation_error_handler),
    (.domainError, domain_error_handler) ]

/-- Starlette's handler lookup: walk the MRO of the raised exception's
class and take the first class with a registered handler. -/
def lookup_exception_handler (exc : DomainError) : Option (DomainError → JSONResponse) :=
  exc.cls.mro.findSome?
    (fun c => (registered_exception_handlers.find? (fun h => h.1 = c)).map (·.2))

/-- Dispatch a raised domain error to its response. -/
def handle_domain_error (exc : DomainError) : Option JSONResponse :=
  (lookup_exception_handler exc).map (· exc)

/-- Specification reading of `Cart.total`, for refinement: the sum over all
items of resolved-product price × quantity, an unresolved product
contributing zero. -/
def cartTotalSpec (c : Cart) : ℚ :=
  (c.items.map (fun item =>
    match item.product with
    | some p => p.price.amount * (item.quantity.value : ℚ)
    | none => 0)).sum

/-- A product with the given id and price and otherwise blank fields; used
to state concrete cart examples. -/
def sampleProduct (id : String) (amount : ℚ) : Product :=
  { id := id, name := id, description := "", price := ⟨amount⟩, stock := ⟨0⟩,
    image_url := "", category := "", parent_category := "" }

/-- Iterated `Cart.add_item`, discarding raised errors' propagation and
keeping the mutated cart, for stating properties of repeated adds. -/
def Cart.addAll (c : Cart) : List CartItem → Cart
  | [] => c
  | i :: rest => Cart.addAll (c.add_item i).1 rest

theorem total_foldl_acc (l : List CartItem) (acc : ℚ) :
    l.foldl
      (fun acc item =>
        match item.product with
        | some p => acc + p.price.amount * (item.quantity.value : ℚ)
        | none => acc)
      acc
    = acc + (l.map (fun item =>
        match item.product with
        | some p => p.price.amount * (item.quantity.value : ℚ)
        | none => 0)).sum := by
  induction l generalizing acc with
  | nil => simp
  | cons x xs ih =>
    cases hx : x.product with
    | none => simp [hx, ih]
    | some p => simp [hx, ih]; ring

/-- C4: `Cart.total` is the sum over resolved items of price × quantity,
items with an unresolved product contributing zero (never an error); the
total of an empty cart is zero; and a cart with resolved items
[(price 10.00, qty 2), (price 5.50, qty 3)] has total 36.50, in exact
arithmetic. -/
theorem cart_total_spec (c : Cart) :
    c.total = cartTotalSpec c
    ∧ (∀ id user_id, (Cart.mk id user_id []).total = 0)
    ∧ (Cart.mk "c1" "u1"
        [ ⟨"p1", some (sampleProduct "p1" 10), ⟨2⟩⟩,
          ⟨"p2", some (sampleProduct "p2" (11/2)), ⟨3⟩⟩ ]).total = 73/2 := by
  refine ⟨?_, fun id user_id => rfl, by norm_num [Cart.total, sampleProduct]⟩
  show c.items.foldl _ 0 = _
  rw [total_foldl_acc]
  simp [cartTotalSpec]

/-- C8: the transport-boundary translation maps `NotFoundError` to 404,
`AuthenticationError` to 401, `AuthorizationError` to 403,
`ValidationError` to 422 and generic `DomainError` to 400, carrying the
error's message as the response detail; and although every specific error
class has `DomainError` in its method-resolution order (it is a subtype),
dispatch picks its own specific handler, not the generic 400 one. -/
theorem exception_handler_status_mapping (m : String) :
    handle_domain_error (.notFoundError m) = some ⟨404, m⟩
    ∧ handle_domain_error (.authenticationError m) = some ⟨401, m⟩
    ∧ handle_domain_error (.authorizationError m) = some ⟨403, m⟩
    ∧ handle_domain_error (.validationError m) = some ⟨422, m⟩
    ∧ handle_domain_error (.domainError m) = some ⟨400, m⟩
    ∧ (∀ e : DomainError, ErrClass.domainError ∈ e.cls.mro) := by
  refine ⟨rfl, rfl, rfl, rfl, rfl, fun e => ?_⟩
  cases e <;> simp [DomainError.cls, ErrClass.mro]

/-- C6: `LoginUser.execute` fails with an `AuthenticationError` carrying
the identical message "Invalid credentials" both when the email is unknown
and when the user exists but the password does not verify, so the error
does not reveal which part of the credentials was wrong. -/
theorem loginUser_uniform_invalid_credentials
    (find_by_email : String → Option User) (verify : String → String → Bool)
    (generate : String → String) (input1 input2 : LoginUserInput) (u : User)
    (h1 : find_by_email input1.email = none)
    (h2 : find_by_email input2.email = some u)
    (h3 : verify input2.password u.hashed_password = false) :
    LoginUser.execute find_by_email verify generate input1
      = .error (.authenticationError "Invalid credentials")
    ∧ LoginUser.execute find_by_email verify generate input2
      = .error (.authenticationError "Invalid credentials") := by
  constructor
  · simp [LoginUser.execute, h1]
  · simp [LoginUser.execute, h2, h3]

theorem loginUser_uniform_invalid_credentials_witness :
    LoginUser.execute
        (fun e => if e = "ann@shop.io" then some ⟨"u1", "ann@shop.io", "Ann", "H", "customer"⟩ else none)
        (fun _ _ => false) (fun _ => "tok") ⟨"zoe@shop.io", "pw"⟩
      = .error (.authenticationError "Invalid credentials")
    ∧ LoginUser.execute
        (fun e => if e = "ann@shop.io" then some ⟨"u1", "ann@shop.io", "Ann", "H", "customer"⟩ else none)
        (fun _ _ => false) (fun _ => "tok") ⟨"ann@shop.io", "pw"⟩
      = .error (.authenticationError "Invalid credentials") :=
  loginUser_uniform_invalid_credentials
    (fun e => if e = "ann@shop.io" then some ⟨"u1", "ann@shop.io", "Ann", "H", "customer"⟩ else none)
    (fun _ _ => false) (fun _ => "tok") ⟨"zoe@shop.io", "pw"⟩ ⟨"ann@shop.io", "pw"⟩
    ⟨"u1", "ann@shop.io", "Ann", "H", "customer"⟩ (by decide) (by decide) rfl

/-- C9: in `UpdateCartItem.execute` the cart lookup precedes the
construction of the `Quantity` value object, so a user with no cart gets
`NotFoundError("Cart not found")` even for a negative quantity; the
`ValidationError` for a negative quantity arises only when the cart
exists. -/
theorem updateCartItem_lookup_precedes_quantity_validation
    (find_cart : String → Option Cart) (input_data : UpdateCartItemInput)
    (hneg : input_data.quantity < 0) :
    (find_cart input_data.user_id = none →
      UpdateCartItem.execute find_cart input_data
        = (.error (.notFoundError "Cart not found"), []))
    ∧ (∀ cart, find_cart input_data.user_id = some cart →
      UpdateCartItem.execute find_cart input_data
        = (.error (.validationError "Quantity cannot be negative"), [])) := by
  constructor
  · intro h
    simp [UpdateCartItem.execute, h]
  · intro cart h
    simp [UpdateCartItem.execute, h, Quantity.make, hneg]

theorem updateCartItem_lookup_precedes_quantity_validation_witness :
    UpdateCartItem.execute (fun _ => none) ⟨"u1", "p1", -1⟩
      = (.error (.notFoundError "Cart not found"), [])
    ∧ UpdateCartItem.execute (fun _ => some ⟨"c1", "u1", []⟩) ⟨"u1", "p1", -1⟩
      = (.error (.validationError "Quantity cannot be negative"), []) :=
  ⟨(updateCartItem_lookup_precedes_quantity_validation (fun _ => none)
      ⟨"u1", "p1", -1⟩ (by decide)).1 rfl,
   (updateCartItem_lookup_precedes_quantity_validation (fun _ => some ⟨"c1", "u1", []⟩)
      ⟨"u1", "p1", -1⟩ (by decide)).2 ⟨"c1", "u1", []⟩ rfl⟩

/-- C10: `GetCart.execute` for a user with no stored cart returns a
synthesized empty cart bearing the freshly generated id and performs no
save, and two calls supplied with distinct fresh ids return different
carts. -/
theorem getCart_synthesizes_unsaved_fresh_cart
    (find_cart : String → Option Cart) (user_id fresh1 fresh2 : String)
    (h : find_cart user_id = none) :
    GetCart.execute find_cart fresh1 user_id
      = ({ id := fresh1, user_id := user_id, items := [] }, [])
    ∧ (fresh1 ≠ fresh2 →
        (GetCart.execute find_cart fresh1 user_id).1
          ≠ (GetCart.execute find_cart fresh2 user_id).1) := by
  refine ⟨by simp [GetCart.execute, h], fun hne => ?_⟩
  simp only [GetCart.execute, h]
  intro hid
  exact hne (congrArg Cart.id hid)

theorem getCart_synthesizes_unsaved_fresh_cart_witness :
    GetCart.execute (fun _ => none) "id-a" "u1"
      = ({ id := "id-a", user_id := "u1", items := [] }, [])
    ∧ (GetCart.execute (fun _ => none) "id-a" "u1").1
        ≠ (GetCart.execute (fun _ => none) "id-b" "u1").1 :=
  ⟨(getCart_synthesizes_unsaved_fresh_cart (fun _ => none) "u1" "id-a" "id-b" rfl).1,
   (getCart_synthesizes_unsaved_fresh_cart (fun _ => none) "u1" "id-a" "id-b" rfl).2
     (by decide)⟩

/-- C7: `AddToCart.execute` with an unknown product id always fails with
`NotFoundError` and performs no save; when the product exists and the user
has no cart, an empty cart with the fresh id is synthesized, the item is
added to it, and exactly that cart is saved and returned. -/
theorem addToCart_missing_product_and_lazy_cart
    (find_product : String → Option Product) (find_cart : String → Option Cart)
    (fresh_id : String) (input_data : AddToCartInput) :
    (find_product input_data.product_id = none →
      AddToCart.execute find_product find_cart fresh_id input_data
        = (.error (.notFoundError ("Product " ++ input_data.product_id ++ " not found")), []))
    ∧ (∀ product, find_product input_data.product_id = some product →
        find_cart input_data.user_id = none → 0 ≤ input_data.quantity →
        AddToCart.execute find_product find_cart fresh_id input_data
          = (.ok { id := fresh_id, user_id := input_data.user_id,
                   items := [⟨input_data.product_id, some product, ⟨input_data.quantity⟩⟩] },
             [{ id := fresh_id, user_id := input_data.user_id,
                items := [⟨input_data.product_id, some product, ⟨input_data.quantity⟩⟩] }])) := by
  constructor
  · intro h
    simp [AddToCart.execute, h]
  · intro product hp hc hq
    have hmk : Quantity.make input_data.quantity = .ok ⟨input_data.quantity⟩ := by
      simp [Quantity.make, not_lt.mpr hq]
    simp [AddToCart.execute, hp, hc, hmk, Cart.add_item, addItemLoop]

theorem addToCart_missing_product_and_lazy_cart_witness :
    AddToCart.execute (fun _ => none) (fun _ => none) "c1" ⟨"u1", "p1", 2⟩
      = (.error (.notFoundError "Product p1 not found"), [])
    ∧ AddToCart.execute (fun _ => some (sampleProduct "p1" 10)) (fun _ => none) "c1"
        ⟨"u1", "p1", 2⟩
      = (.ok { id := "c1", user_id := "u1",
               items := [⟨"p1", some (sampleProduct "p1" 10), ⟨2⟩⟩] },
         [{ id := "c1", user_id := "u1",
            items := [⟨"p1", some (sampleProduct "p1" 10), ⟨2⟩⟩] }]) :=
  ⟨(addToCart_missing_product_and_lazy_cart (fun _ => none) (fun _ => none) "c1"
      ⟨"u1", "p1", 2⟩).1 rfl,
   (addToCart_missing_product_and_lazy_cart (fun _ => some (sampleProduct "p1" 10))
      (fun _ => none) "c1" ⟨"u1", "p1", 2⟩).2 (sampleProduct "p1" 10) rfl rfl (by decide)⟩

theorem addItemLoop_no_match (l : List CartItem) (item : CartItem)
    (h : ∀ i ∈ l, i.product_id ≠ item.product_id) :
    addItemLoop l item = (l ++ [item], none) := by
  induction l with
  | nil => rfl
  | cons x xs ih =>
    have hx : x.product_id ≠ item.product_id := h x (by simp)
    simp [addItemLoop, hx, ih (fun i hi => h i (by simp [hi]))]

theorem addItemLoop_first_match (pre : List CartItem) (x : CartItem)
    (post : List CartItem) (item : CartItem)
    (hpre : ∀ i ∈ pre, i.product_id ≠ item.product_id)
    (hx : x.product_id = item.product_id)
    (hq : 0 ≤ x.quantity.value + item.quantity.value) :
    addItemLoop (pre ++ x :: post) item
      = (pre ++ { x with quantity := ⟨x.quantity.value + item.quantity.value⟩ } :: post,
         none) := by
  induction pre with
  | nil =>
    have hmk : Quantity.make (x.quantity.value + item.quantity.value)
        = .ok ⟨x.quantity.value + item.quantity.value⟩ := by
      simp [Quantity.make, not_lt.mpr hq]
    simp [addItemLoop, hx, hmk]
  | cons y ys ih =>
    have hy : y.product_id ≠ item.product_id := hpre y (by simp)
    simp [addItemLoop, hy, ih (fun i hi => hpre i (by simp [hi]))]

theorem addItemLoop_ids_sub (l : List CartItem) (item : CartItem) :
    ∀ x ∈ (addItemLoop l item).1,
      x.product_id ∈ l.map (fun i => i.product_id) ∨ x.product_id = item.product_id := by
  induction l with
  | nil => simp [addItemLoop]
  | cons y ys ih =>
    intro x hx
    by_cases hy : y.product_id = item.product_id
    · cases hmk : Quantity.make (y.quantity.value + item.quantity.value) with
      | ok q =>
        simp [addItemLoop, hy, hmk] at hx
        rcases hx with rfl | hx
        · simp
        · exact Or.inl (by simp; exact Or.inr ⟨x, hx, rfl⟩)
      | error e =>
        simp [addItemLoop, hy, hmk] at hx
        rcases hx with rfl | hx
        · simp
        · exact Or.inl (by simp; exact Or.inr ⟨x, hx, rfl⟩)
    · simp [addItemLoop, hy] at hx
      rcases hx with rfl | hx
      · simp
      · rcases ih x hx with h1 | h1
        · exact Or.inl (by simp at h1 ⊢; exact Or.inr h1)
        · exact Or.inr h1

theorem addItemLoop_nodup (l : List CartItem) (item : CartItem)
    (h : (l.map (fun i => i.product_id)).Nodup) :
    ((addItemLoop l item).1.map (fun i => i.product_id)).Nodup := by
  induction l with
  | nil => simp [addItemLoop]
  | cons y ys ih =>
    rw [List.map_cons, List.nodup_cons] at h
    by_cases hy : y.product_id = item.product_id
    · cases hmk : Quantity.make (y.quantity.value + item.quantity.value) with
      | ok q => simpa [addItemLoop, hy, hmk, List.nodup_cons] using h
      | error e => simpa [addItemLoop, hy, hmk, List.nodup_cons] using h
    · have hrec := ih h.2
      simp only [addItemLoop, if_neg hy, List.map_cons, List.nodup_cons]
      refine ⟨fun hmem => ?_, hrec⟩
      rcases List.mem_map.mp hmem with ⟨x, hx, hpx⟩
      rcases addItemLoop_ids_sub ys item x hx with h1 | h1
      · exact h.1 (hpx ▸ h1)
      · exact hy (hpx ▸ h1)

theorem addItemLoop_no_error (l : List CartItem) (item : CartItem)
    (hl : ∀ i ∈ l, 0 ≤ i.quantity.value) (hi : 0 ≤ item.quantity.value) :
    (addItemLoop l item).2 = none := by
  induction l with
  | nil => rfl
  | cons y ys ih =>
    by_cases hy : y.product_id = item.product_id
    · have hmk : Quantity.make (y.quantity.value + item.quantity.value)
          = .ok ⟨y.quantity.value + item.quantity.value⟩ := by
        simp [Quantity.make, not_lt.mpr (add_nonneg (hl y (by simp)) hi)]
      simp [addItemLoop, hy, hmk]
    · simp [addItemLoop, hy, ih (fun i hi' => hl i (by simp [hi']))]

theorem updateQuantityLoop_no_match (l : List CartItem) (product_id : String)
    (q : Quantity) (h : ∀ i ∈ l, i.product_id ≠ product_id) :
    updateQuantityLoop l product_id q = none := by
  induction l with
  | nil => rfl
  | cons x xs ih =>
    simp [updateQuantityLoop, h x (by simp), ih (fun i hi => h i (by simp [hi]))]

theorem updateQuantityLoop_first_match (pre : List CartItem) (x : CartItem)
    (post : List CartItem) (product_id : String) (q : Quantity)
    (hpre : ∀ i ∈ pre, i.product_id ≠ product_id)
    (hx : x.product_id = product_id) :
    updateQuantityLoop (pre ++ x :: post) product_id q
      = some (pre ++ { x with quantity := q } :: post) := by
  induction pre with
  | nil => simp [updateQuantityLoop, hx]
  | cons y ys ih =>
    have hy : y.product_id ≠ product_id := hpre y (by simp)
    simp [updateQuantityLoop, hy, ih (fun i hi => hpre i (by simp [hi]))]

theorem updateQuantityLoop_ids (l : List CartItem) (product_id : String)
    (q : Quantity) (l' : List CartItem)
    (h : updateQuantityLoop l product_id q = some l') :
    l'.map (fun i => i.product_id) = l.map (fun i => i.product_id) := by
  induction l generalizing l' with
  | nil => simp [updateQuantityLoop] at h
  | cons x xs ih =>
    by_cases hx : x.product_id = product_id
    · simp [updateQuantityLoop, hx] at h
      subst h
      simp [hx]
    · simp [updateQuantityLoop, hx] at h
      rcases h with ⟨l'', hl'', rfl⟩
      simp [ih l'' hl'']

theorem remove_item_items (c : Cart) (product_id : String) :
    (c.remove_item product_id).1.items
      = c.items.filter (fun i => i.product_id ≠ product_id) := by
  simp only [Cart.remove_item]
  split <;> rfl

/-- C3: `Cart.remove_item` removes every item whose `product_id` matches;
when no item matches it raises `NotFoundError` and the item list is
unchanged after the failed call. -/
theorem remove_item_spec (c : Cart) (product_id : String) :
    (c.remove_item product_id).1.items
        = c.items.filter (fun i => i.product_id ≠ product_id)
    ∧ ((∀ i ∈ c.items, i.product_id ≠ product_id) →
        (c.remove_item product_id).1.items = c.items
        ∧ (c.remove_item product_id).2
            = some (.notFoundError
                ("Item with product_id " ++ product_id ++ " not found in cart"))) := by
  refine ⟨remove_item_items c product_id, fun hall => ?_⟩
  have hfil : c.items.filter (fun i => i.product_id ≠ product_id) = c.items :=
    List.filter_eq_self.mpr (fun a ha => by simpa using hall a ha)
  constructor
  · rw [remove_item_items, hfil]
  · simp [Cart.remove_item, hfil]
    rw [if_pos hall]

theorem remove_item_spec_witness :
    ((Cart.mk "c1" "u1" [⟨"p1", none, ⟨1⟩⟩]).remove_item "p2").1.items
        = [⟨"p1", none, ⟨1⟩⟩]
    ∧ ((Cart.mk "c1" "u1" [⟨"p1", none, ⟨1⟩⟩]).remove_item "p2").2
        = some (.notFoundError "Item with product_id p2 not found in cart") :=
  (remove_item_spec (Cart.mk "c1" "u1" [⟨"p1", none, ⟨1⟩⟩]) "p2").2 (by decide)

/-- C2: `Cart.update_item_quantity` fails with `ValidationError` on a
negative quantity regardless of cart contents; on zero it behaves exactly
as `remove_item` (same `NotFoundError` semantics); on a positive quantity
it replaces the quantity of the (first, hence under the uniqueness
invariant the unique) matching item, and raises `NotFoundError` when no
item matches. -/
theorem update_item_quantity_spec (c : Cart) (product_id : String) (quantity : Quantity) :
    (quantity.value < 0 →
      c.update_item_quantity product_id quantity
        = (c, some (.validationError "Quantity cannot be negative")))
    ∧ (quantity.value = 0 →
      c.update_item_quantity product_id quantity = c.remove_item product_id)
    ∧ (0 < quantity.value → (∀ i ∈ c.items, i.product_id ≠ product_id) →
      c.update_item_quantity product_id quantity
        = (c, some (.notFoundError
            ("Item with product_id " ++ product_id ++ " not found in cart"))))
    ∧ (0 < quantity.value → ∀ pre x post, c.items = pre ++ x :: post →
        (∀ i ∈ pre, i.product_id ≠ product_id) → x.product_id = product_id →
        c.update_item_quantity product_id quantity
          = ({ c with items := pre ++ { x with quantity := quantity } :: post }, none)) := by
  refine ⟨fun hneg => ?_, fun hzero => ?_, fun hpos hall => ?_, fun hpos pre x post hitems hpre hx => ?_⟩
  · simp [Cart.update_item_quantity, hneg]
  · simp [Cart.update_item_quantity, hzero]
  · have h1 : ¬ quantity.value < 0 := not_lt.mpr hpos.le
    have h2 : ¬ quantity.value = 0 := by omega
    simp [Cart.update_item_quantity, h1, h2,
      updateQuantityLoop_no_match c.items product_id quantity hall]
  · have h1 : ¬ quantity.value < 0 := not_lt.mpr hpos.le
    have h2 : ¬ quantity.value = 0 := by omega
    simp [Cart.update_item_quantity, h1, h2, hitems,
      updateQuantityLoop_first_match pre x post product_id quantity hpre hx]

theorem update_item_quantity_spec_witness :
    (Cart.mk "c1" "u1" [⟨"p1", none, ⟨2⟩⟩]).update_item_quantity "p1" ⟨-1⟩
        = (Cart.mk "c1" "u1" [⟨"p1", none, ⟨2⟩⟩],
           some (.validationError "Quantity cannot be negative"))
    ∧ (Cart.mk "c1" "u1" [⟨"p1", none, ⟨2⟩⟩]).update_item_quantity "p1" ⟨0⟩
        = (Cart.mk "c1" "u1" [⟨"p1", none, ⟨2⟩⟩]).remove_item "p1"
    ∧ (Cart.mk "c1" "u1" [⟨"p1", none, ⟨2⟩⟩]).update_item_quantity "p9" ⟨1⟩
        = (Cart.mk "c1" "u1" [⟨"p1", none, ⟨2⟩⟩],
           some (.notFoundError "Item with product_id p9 not found in cart"))
    ∧ (Cart.mk "c1" "u1" [⟨"p1", none, ⟨2⟩⟩]).update_item_quantity "p1" ⟨5⟩
        = (Cart.mk "c1" "u1" [⟨"p1", none, ⟨5⟩⟩], none) :=
  ⟨(update_item_quantity_spec (Cart.mk "c1" "u1" [⟨"p1", none, ⟨2⟩⟩]) "p1" ⟨-1⟩).1
      (by decide),
   (update_item_quantity_spec (Cart.mk "c1" "u1" [⟨"p1", none, ⟨2⟩⟩]) "p1" ⟨0⟩).2.1
      rfl,
   (update_item_quantity_spec (Cart.mk "c1" "u1" [⟨"p1", none, ⟨2⟩⟩]) "p9" ⟨1⟩).2.2.1
      (by decide) (by decide),
   (update_item_quantity_spec (Cart.mk "c1" "u1" [⟨"p1", none, ⟨2⟩⟩]) "p1" ⟨5⟩).2.2.2
      (by decide) [] ⟨"p1", none, ⟨2⟩⟩ [] rfl (by decide) rfl⟩

theorem add_item_no_match (c : Cart) (item : CartItem)
    (h : ∀ i ∈ c.items, i.product_id ≠ item.product_id) :
    c.add_item item = ({ c with items := c.items ++ [item] }, none) := by
  simp [Cart.add_item, addItemLoop_no_match c.items item h]

theorem addAll_items (l : List CartItem) (c : Cart)
    (hdisj : ∀ i ∈ l, ∀ j ∈ c.items, j.product_id ≠ i.product_id)
    (hpair : l.Pairwise (fun a b => a.product_id ≠ b.product_id)) :
    (c.addAll l).items = c.items ++ l := by
  induction l generalizing c with
  | nil => simp [Cart.addAll]
  | cons i rest ih =>
    rw [List.pairwise_cons] at hpair
    have hstep : c.add_item i = ({ c with items := c.items ++ [i] }, none) :=
      add_item_no_match c i (fun j hj => hdisj i (by simp) j hj)
    rw [Cart.addAll, hstep]
    rw [ih { c with items := c.items ++ [i] } ?_ hpair.2]
    · simp
    · intro x hx j hj
      rcases List.mem_append.mp hj with hj | hj
      · exact hdisj x (by simp [hx]) j hj
      · rcases List.mem_singleton.mp hj with rfl
        exact hpair.1 x hx

/-- C1: `Cart.add_item` merges when an existing item shares the incoming
`product_id` — the existing item's quantity becomes the sum of the two
quantities and the item count is unchanged — and otherwise appends the
incoming item at the end.  In particular adding the same `product_id`
twice with quantities q1 and q2 to an empty cart yields one item with
quantity q1 + q2, and adding items with pairwise distinct `product_id`s
to an empty cart yields one item per add. -/
theorem add_item_spec (c : Cart) (item : CartItem) :
    (∀ pre x post, c.items = pre ++ x :: post →
      (∀ i ∈ pre, i.product_id ≠ item.product_id) → x.product_id = item.product_id →
      0 ≤ x.quantity.value + item.quantity.value →
      (c.add_item item).1.items
          = pre ++ { x with quantity := ⟨x.quantity.value + item.quantity.value⟩ } :: post
        ∧ (c.add_item item).1.items.length = c.items.length
        ∧ (c.add_item item).2 = none)
    ∧ ((∀ i ∈ c.items, i.product_id ≠ item.product_id) →
        (c.add_item item).1.items = c.items ++ [item] ∧ (c.add_item item).2 = none)
    ∧ (∀ id user_id pid prod1 prod2 (q1 q2 : Int), 0 ≤ q1 → 0 ≤ q2 →
        ((((Cart.mk id user_id []).add_item ⟨pid, prod1, ⟨q1⟩⟩).1.add_item
            ⟨pid, prod2, ⟨q2⟩⟩).1).items
          = [⟨pid, prod1, ⟨q1 + q2⟩⟩])
    ∧ (∀ id user_id (l : List CartItem),
        l.Pairwise (fun a b => a.product_id ≠ b.product_id) →
        ((Cart.mk id user_id []).addAll l).items.length = l.length) := by
  refine ⟨fun pre x post hitems hpre hx hq => ?_, fun hall => ?_,
    fun id user_id pid prod1 prod2 q1 q2 hq1 hq2 => ?_,
    fun id user_id l hpair => ?_⟩
  · have := addItemLoop_first_match pre x post item hpre hx hq
    refine ⟨?_, ?_, ?_⟩ <;> simp [Cart.add_item, hitems, this]
  · rw [add_item_no_match c item hall]
    exact ⟨rfl, rfl⟩
  · have h1 : (Cart.mk id user_id []).add_item ⟨pid, prod1, ⟨q1⟩⟩
        = (Cart.mk id user_id [⟨pid, prod1, ⟨q1⟩⟩], none) := by
      simp [Cart.add_item, addItemLoop]
    have hmk : Quantity.make (q1 + q2) = .ok ⟨q1 + q2⟩ := by
      simp [Quantity.make, not_lt.mpr (add_nonneg hq1 hq2)]
    rw [h1]
    simp [Cart.add_item, addItemLoop, hmk]
  · rw [addAll_items l (Cart.mk id user_id []) (by simp) hpair]
    simp

theorem add_item_spec_witness :
    ((Cart.mk "c1" "u1" [⟨"p1", none, ⟨2⟩⟩]).add_item ⟨"p1", none, ⟨3⟩⟩).1.items
        = [⟨"p1", none, ⟨5⟩⟩]
    ∧ ((Cart.mk "c1" "u1" [⟨"p1", none, ⟨2⟩⟩]).add_item ⟨"p1", none, ⟨3⟩⟩).1.items.length
        = 1
    ∧ ((Cart.mk "c1" "u1" [⟨"p1", none, ⟨2⟩⟩]).add_item ⟨"p1", none, ⟨3⟩⟩).2 = none
    ∧ ((Cart.mk "c1" "u1" [⟨"p1", none, ⟨2⟩⟩]).add_item ⟨"p2", none, ⟨1⟩⟩).1.items
        = [⟨"p1", none, ⟨2⟩⟩, ⟨"p2", none, ⟨1⟩⟩]
    ∧ (((Cart.mk "c2" "u2" []).add_item ⟨"p7", none, ⟨2⟩⟩).1.add_item
          ⟨"p7", none, ⟨4⟩⟩).1.items = [⟨"p7", none, ⟨6⟩⟩]
    ∧ ((Cart.mk "c3" "u3" []).addAll
          [⟨"p1", none, ⟨1⟩⟩, ⟨"p2", none, ⟨1⟩⟩]).items.length = 2 := by
  have h := add_item_spec (Cart.mk "c1" "u1" [⟨"p1", none, ⟨2⟩⟩]) ⟨"p1", none, ⟨3⟩⟩
  have h1 := h.1 [] ⟨"p1", none, ⟨2⟩⟩ [] rfl (by decide) rfl (by decide)
  have h2 := (add_item_spec (Cart.mk "c1" "u1" [⟨"p1", none, ⟨2⟩⟩])
    ⟨"p2", none, ⟨1⟩⟩).2.1 (by decide)
  have h3 := h.2.2.1 "c2" "u2" "p7" none none 2 4 (by decide) (by decide)
  have h4 := h.2.2.2 "c3" "u3" [⟨"p1", none, ⟨1⟩⟩, ⟨"p2", none, ⟨1⟩⟩] (by decide)
  exact ⟨h1.1, h1.2.1, h1.2.2, h2.1, h3, h4⟩

/-- C5: pairwise-distinct `product_id`s is an invariant of `Cart`: starting
from a cart whose item ids are nodup, the state after `add_item`,
`remove_item` or `update_item_quantity` — whether the call succeeds or
raises — still has nodup ids; and `add_item` never rejects (raises) when
the involved quantities are non-negative, the invariant being kept by
merging. -/
theorem cart_unique_product_id_invariant (c : Cart)
    (h : (c.items.map (fun i => i.product_id)).Nodup) :
    (∀ item, ((c.add_item item).1.items.map (fun i => i.product_id)).Nodup)
    ∧ (∀ product_id,
        ((c.remove_item product_id).1.items.map (fun i => i.product_id)).Nodup)
    ∧ (∀ product_id quantity,
        ((c.update_item_quantity product_id quantity).1.items.map
          (fun i => i.product_id)).Nodup)
    ∧ (∀ item, (∀ i ∈ c.items, 0 ≤ i.quantity.value) → 0 ≤ item.quantity.value →
        (c.add_item item).2 = none) := by
  refine ⟨fun item => ?_, fun product_id => ?_, fun product_id quantity => ?_,
    fun item hl hi => ?_⟩
  · simpa [Cart.add_item] using addItemLoop_nodup c.items item h
  · rw [remove_item_items]
    exact List.Nodup.sublist (List.Sublist.map _ (List.filter_sublist _)) h
  · by_cases h1 : quantity.value < 0
    · simpa [Cart.update_item_quantity, h1] using h
    · by_cases h2 : quantity.value = 0
      · have hdel : c.update_item_quantity product_id quantity
            = c.remove_item product_id := by
          simp [Cart.update_item_quantity, h1, h2]
        rw [hdel, remove_item_items]
        exact List.Nodup.sublist (List.Sublist.map _ (List.filter_sublist _)) h
      · cases hl : updateQuantityLoop c.items product_id quantity with
        | none => simpa [Cart.update_item_quantity, h1, h2, hl] using h
        | some l' =>
          have hres : (c.update_item_quantity product_id quantity).1.items = l' := by
            simp [Cart.update_item_quantity, h1, h2, hl]
          rw [hres, updateQuantityLoop_ids c.items product_id quantity l' hl]
          exact h
  · simp [Cart.add_item, addItemLoop_no_error c.items item hl hi]

theorem cart_unique_product_id_invariant_witness :
    (((Cart.mk "c1" "u1" [⟨"p1", none, ⟨1⟩⟩, ⟨"p2", none, ⟨2⟩⟩]).add_item
        ⟨"p1", none, ⟨3⟩⟩).1.items.map (fun i => i.product_id)).Nodup
    ∧ (((Cart.mk "c1" "u1" [⟨"p1", none, ⟨1⟩⟩, ⟨"p2", none, ⟨2⟩⟩]).remove_item
        "p1").1.items.map (fun i => i.product_id)).Nodup
    ∧ (((Cart.mk "c1" "u1" [⟨"p1", none, ⟨1⟩⟩, ⟨"p2", none, ⟨2⟩⟩]).update_item_quantity
        "p2" ⟨0⟩).1.items.map (fun i => i.product_id)).Nodup
    ∧ ((Cart.mk "c1" "u1" [⟨"p1", none, ⟨1⟩⟩, ⟨"p2", none, ⟨2⟩⟩]).add_item
        ⟨"p1", none, ⟨3⟩⟩).2 = none := by
  have h := cart_unique_product_id_invariant
    (Cart.mk "c1" "u1" [⟨"p1", none, ⟨1⟩⟩, ⟨"p2", none, ⟨2⟩⟩]) (by decide)
  exact ⟨h.1 ⟨"p1", none, ⟨3⟩⟩, h.2.1 "p1", h.2.2.1 "p2" ⟨0⟩,
    h.2.2.2 ⟨"p1", none, ⟨3⟩⟩ (by decide) (by decide)⟩
